import Mathlib

/-!
Verification development for the `requestss/tickets` bot (`src/index.js`).

This file gives a shallow embedding of the ticket lifecycle engine:
the SQLite-backed store (tables `config`, `tickets`, `ticket_members`),
the Discord gateway objects the handlers touch (guild, channels,
permission overwrites), and the slash-command handlers
`add`, `remove`, `close`, `open` (reopen), `delete`, together with the
helper `createTicketChannel`.  Gateway calls that the code awaits and
that may fail (channel creation, per-member permission strips,
transcript export, channel deletion) are driven by an explicit
environment, so that error propagation can be stated faithfully:
a thrown exception aborts the rest of the handler but keeps every
mutation already applied.
-/

namespace Tickets

/-- Mirror of `ChannelType` as used by the source (`ChannelType.GuildText`). -/
inductive ChanType where
  | guildText
  | category
  | other
  deriving DecidableEq, Repr, BEq

/-- A permission overwrite on a channel for a principal (user or role).
`view`/`send` are the effective `ViewChannel` / `SendMessages` values:
an overwrite created with `deny: [ViewChannel]` is modelled as
`view = false, send = false`, one with `allow: [ViewChannel, SendMessages]`
as `view = true, send = true` (as in `createTicketChannel`, lines 213-217,
and `permissionOverwrites.edit(user, {ViewChannel: true, SendMessages: true})`). -/
structure Overwrite where
  id : String
  view : Bool
  send : Bool
  deriving DecidableEq, Repr

/-- A Discord text channel as the handlers see it: id, name, type,
parent category, and its permission overwrites. -/
structure Channel where
  id : String
  name : String
  typ : ChanType
  parent : Option String
  overwrites : List Overwrite
  deriving DecidableEq, Repr

/-- The guild: its id (used as the `@everyone` principal in overwrites)
and its channel cache (`guild.channels.cache`). -/
structure Guild where
  id : String
  channels : List Channel
  deriving DecidableEq, Repr

/-- Row of the `config` table (one per guild; here the single guild's row,
`none` when `SELECT * FROM config WHERE guildId = ?` finds nothing).
`supportRole`, `closedCategory`, `logChannel` are nullable columns. -/
structure ConfigRow where
  guildId : String
  supportRole : Option String
  closedCategory : Option String
  logChannel : Option String
  panelColor : String
  deriving DecidableEq, Repr

/-- Row of the `tickets` table, keyed by `channelId`. -/
structure TicketRow where
  channelId : String
  guildId : String
  ownerId : String
  panelName : String
  status : String
  createdAt : Nat
  closedAt : Option Nat
  deriving DecidableEq, Repr

/-- Row of the `ticket_members` table, keyed by `(channelId, userId)`. -/
structure MemberRow where
  channelId : String
  userId : String
  deriving DecidableEq, Repr

/-- The whole mutable world a handler touches: the database tables,
the guild (channels and their overwrites), and the list of log-channel
ids a transcript message was posted to (`logChannel.send`, lines 446
and 497). -/
structure St where
  config : Option ConfigRow
  tickets : List TicketRow
  ticketMembers : List MemberRow
  guild : Guild
  logPosts : List String
  deriving DecidableEq, Repr

/-- The caller of a slash command: `interaction.user.id`, the
`Administrator` permission bit, and the caller's role ids
(`member.roles.cache`). -/
structure Caller where
  userId : String
  username : String
  isAdmin : Bool
  roles : List String
  deriving DecidableEq, Repr

/-- Environment driving the fallible awaited gateway calls:
`createFails` — `guild.channels.create` rejects;
`stripFails` — the user ids whose `permissionOverwrites.delete` rejects;
`exportFails` — `createTranscript` rejects;
`channelDeleteFails` — `channel.delete` rejects;
`now` — `strftime('%s','now')`; `newChannelId` — the id Discord assigns
to a freshly created channel. -/
structure Env where
  createFails : Bool
  stripFails : List String
  exportFails : Bool
  channelDeleteFails : Bool
  now : Nat
  newChannelId : String
  deriving DecidableEq, Repr

/-- The errors a handler can throw, named after the spec's taxonomy.
`notConfigured` = "Ticket system not set up!";
`duplicateTicket` = "You already have an open ticket";
`notATicketChannel` = "This is not a ticket channel!";
`forbidden` = the "Only ticket owners or staff …" / "Only staff …" messages;
`cannotRemoveOwner` = "Cannot remove the ticket owner!";
`notClosed` = "This is not a closed ticket!";
`gatewayError` / `exportError` = a rejected gateway / transcript promise;
`typeError` = the JavaScript `TypeError` raised by reading a property of
`undefined` (line 400 when `ticketData` is `undefined`). -/
inductive CmdError where
  | notConfigured
  | duplicateTicket
  | notATicketChannel
  | forbidden
  | cannotRemoveOwner
  | notClosed
  | gatewayError
  | exportError
  | typeError
  deriving DecidableEq, Repr

/-- Models `SELECT * FROM tickets WHERE channelId = ?` (lines 373, 396, 415, 485, 520). -/
def getTicket (ts : List TicketRow) (chId : String) : Option TicketRow :=
  ts.find? (fun t => t.channelId == chId)

/-- Models `SELECT * FROM tickets WHERE channelId = ? AND status = 'closed'` (line 462). -/
def getClosedTicket (ts : List TicketRow) (chId : String) : Option TicketRow :=
  ts.find? (fun t => t.channelId == chId && t.status == "closed")

/-- Models `SELECT userId FROM ticket_members WHERE channelId = ?` (lines 435, 467). -/
def memberIdsOf (ms : List MemberRow) (chId : String) : List String :=
  (ms.filter (fun m => m.channelId == chId)).map (fun m => m.userId)

/-- Models `guild.channels.cache.get(id)` (by id). -/
def getChannel (g : Guild) (chId : String) : Option Channel :=
  g.channels.find? (fun c => c.id == chId)

/-- Models `const isStaff = config?.supportRole && member.roles.cache.has(config.supportRole)`
(line 307). -/
def isStaffOf (cfg : Option ConfigRow) (roles : List String) : Bool :=
  match cfg.bind (fun c => c.supportRole) with
  | some r => roles.contains r
  | none => false

/-- Apply `f` to the channel with the given id, leaving other channels alone. -/
def mapChannel (g : Guild) (chId : String) (f : Channel → Channel) : Guild :=
  { g with channels := g.channels.map (fun c => if c.id == chId then f c else c) }

/-- Models `permissionOverwrites.edit(uid, {ViewChannel: v, SendMessages: s})`:
update the principal's overwrite if present, else add one. -/
def upsertOverwrite (ovs : List Overwrite) (uid : String) (v s : Bool) : List Overwrite :=
  if ovs.any (fun o => o.id == uid) then
    ovs.map (fun o => if o.id == uid then { o with view := v, send := s } else o)
  else ovs ++ [{ id := uid, view := v, send := s }]

/-- Models `channel.permissionOverwrites.edit` on the channel with id `chId`. -/
def editOverwrite (g : Guild) (chId uid : String) (v s : Bool) : Guild :=
  mapChannel g chId (fun c => { c with overwrites := upsertOverwrite c.overwrites uid v s })

/-- Models `channel.permissionOverwrites.delete(uid)` on the channel with id `chId`. -/
def deleteOverwrite (g : Guild) (chId uid : String) : Guild :=
  mapChannel g chId (fun c => { c with overwrites := c.overwrites.filter (fun o => !(o.id == uid)) })

/-- Models `channel.setParent(cat)`. -/
def setParent (g : Guild) (chId cat : String) : Guild :=
  mapChannel g chId (fun c => { c with parent := some cat })

/-- Models `channel.delete(...)`: remove the channel from the guild. -/
def removeChannel (g : Guild) (chId : String) : Guild :=
  { g with channels := g.channels.filter (fun c => !(c.id == chId)) }

/-- Does principal `uid` have any overwrite on channel `chId`? -/
def hasOverwrite (g : Guild) (chId uid : String) : Bool :=
  match getChannel g chId with
  | some c => c.overwrites.any (fun o => o.id == uid)
  | none => false

/-- Does principal `uid` have an overwrite granting both view and send on `chId`? -/
def hasViewSend (g : Guild) (chId uid : String) : Bool :=
  match getChannel g chId with
  | some c => c.overwrites.any (fun o => o.id == uid && o.view && o.send)
  | none => false

/-- The parent category of channel `chId`, when the channel exists. -/
def parentOf (g : Guild) (chId : String) : Option String :=
  match getChannel g chId with
  | some c => c.parent
  | none => none

/-- Models `createTicketChannel(guild, user, panelName)` (src/index.js lines 195-232):
config check, duplicate-name check, channel creation, then — only after the
channel exists — the `tickets` and `ticket_members` inserts. -/
def createTicketChannel (env : Env) (st : St) (caller : Caller) (panelName : String) :
    St × Except CmdError Channel :=
  match st.config.bind (fun c => c.supportRole) with
  | none => (st, Except.error CmdError.notConfigured)
  | some role =>
    let ticketName := "ticket-" ++ caller.username.toLower
    match st.guild.channels.find? (fun c => c.name == ticketName && c.typ == ChanType.guildText) with
    | some _ => (st, Except.error CmdError.duplicateTicket)
    | none =>
      if env.createFails then (st, Except.error CmdError.gatewayError)
      else
        let ch : Channel :=
          { id := env.newChannelId, name := ticketName, typ := ChanType.guildText,
            parent := none,
            overwrites :=
              [ { id := st.guild.id, view := false, send := false },
                { id := caller.userId, view := true, send := true },
                { id := role, view := true, send := true } ] }
        ({ st with
            guild := { st.guild with channels := st.guild.channels ++ [ch] },
            tickets := st.tickets ++
              [ { channelId := ch.id, guildId := st.guild.id, ownerId := caller.userId,
                  panelName := panelName, status := "open", createdAt := env.now,
                  closedAt := none } ],
            ticketMembers := st.ticketMembers ++ [{ channelId := ch.id, userId := caller.userId }] },
         Except.ok ch)

/-- The shared tail of the `add` handler: grant view/send to the target and
`INSERT OR IGNORE` a `ticket_members` row (lines 378-386). -/
def addApply (st : St) (chId target : String) : St :=
  let g := editOverwrite st.guild chId target true true
  let ms :=
    if st.ticketMembers.any (fun m => m.channelId == chId && m.userId == target) then
      st.ticketMembers
    else st.ticketMembers ++ [{ channelId := chId, userId := target }]
  { st with guild := g, ticketMembers := ms }

/-- Models `case 'add'` (lines 371-392).  The guards mirror the source's
short-circuit evaluation: `if (!ticket && !isStaff) throw NotATicketChannel`,
then `if (!isStaff && ticket.ownerId !== user.id) throw Forbidden`. -/
def addCmd (st : St) (caller : Caller) (chId target : String) : St × Except CmdError Unit :=
  match getTicket st.tickets chId, isStaffOf st.config caller.roles with
  | none, false => (st, Except.error CmdError.notATicketChannel)
  | some t, false =>
    if t.ownerId != caller.userId then (st, Except.error CmdError.forbidden)
    else (addApply st chId target, Except.ok ())
  | _, true => (addApply st chId target, Except.ok ())

/-- Models `case 'remove'` (lines 394-412).  With no ticket row and a staff caller,
the guard at line 398 passes and the guard at line 399 short-circuits, so
line 400 evaluates `userToRemove.id === ticketData.ownerId` with
`ticketData === undefined`, raising a JavaScript `TypeError`; that is the
`typeError` branch below. -/
def removeCmd (st : St) (caller : Caller) (chId target : String) : St × Except CmdError Unit :=
  match getTicket st.tickets chId, isStaffOf st.config caller.roles with
  | none, false => (st, Except.error CmdError.notATicketChannel)
  | none, true => (st, Except.error CmdError.typeError)
  | some t, staffb =>
    if !staffb && t.ownerId != caller.userId then (st, Except.error CmdError.forbidden)
    else if target == t.ownerId then (st, Except.error CmdError.cannotRemoveOwner)
    else
      ({ st with
          guild := deleteOverwrite st.guild chId target,
          ticketMembers :=
            st.ticketMembers.filter (fun m => !(m.channelId == chId && m.userId == target)) },
       Except.ok ())

/-- Models `UPDATE tickets SET status = 'closed', closedAt = strftime('%s','now')
WHERE channelId = ?` (lines 424-427). -/
def setClosed (ts : List TicketRow) (chId : String) (now : Nat) : List TicketRow :=
  ts.map (fun t => if t.channelId == chId then { t with status := "closed", closedAt := some now } else t)

/-- The member-strip loop of `close` (lines 436-440).  Each
`permissionOverwrites.delete` is awaited with no per-item guard, so a
rejected call (a user id in `fails`) aborts the remainder of the loop,
keeping the deletions already applied. -/
def stripLoop (fails : List String) (chId ownerId callerId : String) (staffb : Bool) :
    Guild → List String → Guild × Except CmdError Unit
  | g, [] => (g, Except.ok ())
  | g, uid :: rest =>
    if uid != ownerId && !(staffb && uid == callerId) then
      if fails.contains uid then (g, Except.error CmdError.gatewayError)
      else stripLoop fails chId ownerId callerId staffb (deleteOverwrite g chId uid) rest
    else stripLoop fails chId ownerId callerId staffb g rest

/-- Models `if (config?.closedCategory) await channel.setParent(...)` (lines 430-432). -/
def moveIfConfigured (cfg : Option ConfigRow) (g : Guild) (chId : String) : Guild :=
  match cfg.bind (fun c => c.closedCategory) with
  | some cat => setParent g chId cat
  | none => g

/-- Models `if (config?.logChannel) { const logChannel = guild.channels.cache.get(...);
if (logChannel) { await logChannel.send({... transcript ...}) } }`
(lines 443-454 and 494-505): the transcript message is posted only when the
configured log channel still resolves in the guild's channel cache. -/
def logIfConfigured (st : St) : St :=
  match st.config.bind (fun c => c.logChannel) with
  | some lc =>
    if (getChannel st.guild lc).isSome then { st with logPosts := st.logPosts ++ [lc] } else st
  | none => st

/-- The state after close's database update (lines 424-427). -/
def closeDb (st : St) (chId : String) (now : Nat) : St :=
  { st with tickets := setClosed st.tickets chId now }

/-- The state after the database update and the category move (lines 424-432). -/
def closeMoved (st : St) (chId : String) (now : Nat) : St :=
  { closeDb st chId now with
    guild := moveIfConfigured (closeDb st chId now).config (closeDb st chId now).guild chId }

/-- The effects of `close` after its precondition and transcript steps:
database update, category move, member-strip loop, log post (lines 424-454). -/
def closeApply (fails : List String) (now : Nat) (st : St) (staffb : Bool)
    (callerId chId ownerId : String) : St × Except CmdError Unit :=
  match stripLoop fails chId ownerId callerId staffb (closeMoved st chId now).guild
      (memberIdsOf (closeMoved st chId now).ticketMembers chId) with
  | (g, Except.error e) => ({ closeMoved st chId now with guild := g }, Except.error e)
  | (g, Except.ok _) => (logIfConfigured { closeMoved st chId now with guild := g }, Except.ok ())

/-- Models `case 'close'` (lines 414-459): ticket lookup, authorization
(staff or owner), transcript export (aborting before any mutation when the
export rejects), then `closeApply`. -/
def closeCmd (env : Env) (st : St) (caller : Caller) (chId : String) : St × Except CmdError Unit :=
  match getTicket st.tickets chId with
  | none => (st, Except.error CmdError.notATicketChannel)
  | some t =>
    let staffb := isStaffOf st.config caller.roles
    if !staffb && t.ownerId != caller.userId then (st, Except.error CmdError.forbidden)
    else if env.exportFails then (st, Except.error CmdError.exportError)
    else closeApply env.stripFails env.now st staffb caller.userId chId t.ownerId

/-- The status update of `reopen`.  Line 476 of the source,
`db.prepare('UPDATE tickets SET status = 'open' WHERE channelId = ?')`,
mis-nests its quotes and is a JavaScript syntax error; this definition
models the update that SQL text evidently intends
(`status = 'open'`, `closedAt` untouched). -/
def setOpen (ts : List TicketRow) (chId : String) : List TicketRow :=
  ts.map (fun t => if t.channelId == chId then { t with status := "open" } else t)

/-- Models `case 'open'` (lines 461-482): closed-ticket lookup, staff check,
re-grant view/send to every stored member, then the status update. -/
def openCmd (st : St) (caller : Caller) (chId : String) : St × Except CmdError Unit :=
  match getClosedTicket st.tickets chId with
  | none => (st, Except.error CmdError.notClosed)
  | some _ =>
    if !(isStaffOf st.config caller.roles) then (st, Except.error CmdError.forbidden)
    else
      let g := (memberIdsOf st.ticketMembers chId).foldl
        (fun g uid => editOverwrite g chId uid true true) st.guild
      ({ st with guild := g, tickets := setOpen st.tickets chId }, Except.ok ())

/-- Models `case 'delete'` (lines 484-517): ticket lookup, staff check, transcript
export (the `await` is unguarded, so a rejected export aborts the handler
before any mutation), log post, row deletions, channel deletion. -/
def deleteCmd (env : Env) (st : St) (caller : Caller) (chId : String) : St × Except CmdError Unit :=
  match getTicket st.tickets chId with
  | none => (st, Except.error CmdError.notATicketChannel)
  | some _ =>
    if !(isStaffOf st.config caller.roles) then (st, Except.error CmdError.forbidden)
    else if env.exportFails then (st, Except.error CmdError.exportError)
    else
      let st1 := logIfConfigured st
      let st2 : St := { st1 with
        tickets := st1.tickets.filter (fun t => !(t.channelId == chId)),
        ticketMembers := st1.ticketMembers.filter (fun m => !(m.channelId == chId)) }
      if env.channelDeleteFails then (st2, Except.error CmdError.gatewayError)
      else ({ st2 with guild := removeChannel st2.guild chId }, Except.ok ())

/-! ### Basic lemmas about the guild operations -/

theorem getChannel_mapChannel (g : Guild) (chId chId' : String) (f : Channel → Channel)
    (hf : ∀ c, (f c).id = c.id) :
    getChannel (mapChannel g chId f) chId' =
      Option.map (fun c => if c.id == chId then f c else c) (getChannel g chId') := by
  unfold getChannel mapChannel
  rw [List.find?_map]
  have hp : ((fun c : Channel => c.id == chId') ∘ fun c => if c.id == chId then f c else c) =
      (fun c : Channel => c.id == chId') := by
    funext c
    by_cases h : (c.id == chId) = true
    · simp only [Function.comp_apply, if_pos h, hf]
    · simp only [Function.comp_apply, if_neg h]
  rw [hp]

theorem getChannel_isSome_mapChannel (g : Guild) (chId chId' : String) (f : Channel → Channel)
    (hf : ∀ c, (f c).id = c.id) :
    (getChannel (mapChannel g chId f) chId').isSome = (getChannel g chId').isSome := by
  rw [getChannel_mapChannel g chId chId' f hf]
  cases getChannel g chId' <;> rfl

theorem getChannel_isSome_editOverwrite (g : Guild) (chId chId' uid : String) (v s : Bool) :
    (getChannel (editOverwrite g chId uid v s) chId').isSome = (getChannel g chId').isSome :=
  getChannel_isSome_mapChannel g chId chId' _ (fun _ => rfl)

theorem getChannel_isSome_deleteOverwrite (g : Guild) (chId chId' uid : String) :
    (getChannel (deleteOverwrite g chId uid) chId').isSome = (getChannel g chId').isSome :=
  getChannel_isSome_mapChannel g chId chId' _ (fun _ => rfl)

theorem getChannel_isSome_setParent (g : Guild) (chId chId' cat : String) :
    (getChannel (setParent g chId cat) chId').isSome = (getChannel g chId').isSome :=
  getChannel_isSome_mapChannel g chId chId' _ (fun _ => rfl)

theorem getChannel_id (g : Guild) (chId : String) (c : Channel)
    (h : getChannel g chId = some c) : (c.id == chId) = true := by
  unfold getChannel at h
  exact @List.find?_some _ (fun c : Channel => c.id == chId) c g.channels h

theorem parentOf_deleteOverwrite (g : Guild) (chId chId' uid : String) :
    parentOf (deleteOverwrite g chId uid) chId' = parentOf g chId' := by
  unfold parentOf deleteOverwrite
  rw [getChannel_mapChannel g chId chId'
    (fun c => { c with overwrites := c.overwrites.filter (fun o => !(o.id == uid)) })
    (fun _ => rfl)]
  cases getChannel g chId' with
  | none => rfl
  | some c => by_cases h : c.id = chId <;> simp [h]

theorem parentOf_setParent_self (g : Guild) (chId cat : String)
    (h : (getChannel g chId).isSome = true) :
    parentOf (setParent g chId cat) chId = some cat := by
  unfold parentOf setParent
  rw [getChannel_mapChannel g chId chId
    (fun c => { c with parent := some cat }) (fun _ => rfl)]
  cases hc : getChannel g chId with
  | none => rw [hc] at h; simp at h
  | some c =>
    have hid : (c.id == chId) = true := getChannel_id g chId c hc
    simp [beq_iff_eq.mp hid]

theorem any_filter_ne (ovs : List Overwrite) (u v : String) :
    ((ovs.filter (fun o => !(o.id == v))).any (fun o => o.id == u)) =
      ((u != v) && ovs.any (fun o => o.id == u)) := by
  induction ovs with
  | nil => simp
  | cons o ovs ih =>
    by_cases h1 : (o.id == v) = true
    · by_cases h2 : (o.id == u) = true
      · have : u = v := by
          rw [beq_iff_eq] at h1 h2; rw [← h2, ← h1]
        simp [List.filter_cons, h1, ih, this]
      · simp [List.filter_cons, h1, h2, ih]
    · by_cases h2 : (o.id == u) = true
      · have : (u != v) = true := by
          rw [bne_iff_ne]
          rw [beq_iff_eq] at h2
          intro huv
          exact h1 (by rw [beq_iff_eq]; exact h2.trans huv)
        simp [List.filter_cons, h1, h2, this]
      · simp [List.filter_cons, h1, h2, ih]

theorem hasOverwrite_deleteOverwrite (g : Guild) (ch u v : String) :
    hasOverwrite (deleteOverwrite g ch v) ch u = ((u != v) && hasOverwrite g ch u) := by
  unfold hasOverwrite deleteOverwrite
  rw [getChannel_mapChannel g ch ch
    (fun c => { c with overwrites := c.overwrites.filter (fun o => !(o.id == v)) })
    (fun _ => rfl)]
  cases hc : getChannel g ch with
  | none => simp
  | some c =>
    have hid : c.id = ch := beq_iff_eq.mp (getChannel_id g ch c hc)
    simp only [Option.map_some', hid, beq_self_eq_true, if_true]
    exact any_filter_ne c.overwrites u v

theorem any_upsert_self (ovs : List Overwrite) (uid : String) :
    ((upsertOverwrite ovs uid true true).any (fun o => o.id == uid && o.view && o.send)) = true := by
  unfold upsertOverwrite
  by_cases h : (ovs.any (fun o => o.id == uid)) = true
  · rw [if_pos h, List.any_map]
    have : ((fun o : Overwrite => o.id == uid && o.view && o.send) ∘
        (fun o => if o.id == uid then { o with view := true, send := true } else o)) =
        (fun o : Overwrite => o.id == uid) := by
      funext o
      by_cases ho : o.id = uid
      · simp [ho]
      · have hb : (o.id == uid) = false := beq_eq_false_iff_ne.mpr ho
        simp [ho, hb]
    rw [this, h]
  · rw [if_neg h, List.any_append]
    simp

theorem any_upsert_other (ovs : List Overwrite) (uid w : String) (v s : Bool) (h : uid ≠ w) :
    ((upsertOverwrite ovs w v s).any (fun o => o.id == uid && o.view && o.send)) =
      (ovs.any (fun o => o.id == uid && o.view && o.send)) := by
  unfold upsertOverwrite
  by_cases hw : (ovs.any (fun o => o.id == w)) = true
  · rw [if_pos hw, List.any_map]
    have hfun : ((fun o : Overwrite => o.id == uid && o.view && o.send) ∘
        (fun o => if o.id == w then { o with view := v, send := s } else o)) =
        (fun o : Overwrite => o.id == uid && o.view && o.send) := by
      funext o
      by_cases ho : o.id = w
      · have huid : (w == uid) = false := by
          simp only [beq_eq_false_iff_ne, ne_eq]
          intro hh
          exact h hh.symm
        simp [ho, huid]
      · simp [ho]
    rw [hfun]
  · rw [if_neg hw, List.any_append]
    have : (w == uid) = false := by
      simp only [beq_eq_false_iff_ne, ne_eq]
      intro hh
      exact h hh.symm
    simp [this]

theorem hasViewSend_editOverwrite_self (g : Guild) (ch uid : String)
    (h : (getChannel g ch).isSome = true) :
    hasViewSend (editOverwrite g ch uid true true) ch uid = true := by
  unfold hasViewSend editOverwrite
  rw [getChannel_mapChannel g ch ch
    (fun c => { c with overwrites := upsertOverwrite c.overwrites uid true true })
    (fun _ => rfl)]
  cases hc : getChannel g ch with
  | none => rw [hc] at h; simp at h
  | some c =>
    have hid : c.id = ch := beq_iff_eq.mp (getChannel_id g ch c hc)
    simp only [Option.map_some', hid, beq_self_eq_true, if_true]
    exact any_upsert_self c.overwrites uid

theorem hasViewSend_editOverwrite_other (g : Guild) (ch uid w : String) (v s : Bool)
    (h : uid ≠ w) :
    hasViewSend (editOverwrite g ch w v s) ch uid = hasViewSend g ch uid := by
  unfold hasViewSend editOverwrite
  rw [getChannel_mapChannel g ch ch
    (fun c => { c with overwrites := upsertOverwrite c.overwrites w v s })
    (fun _ => rfl)]
  cases hc : getChannel g ch with
  | none => simp
  | some c =>
    have hid : c.id = ch := beq_iff_eq.mp (getChannel_id g ch c hc)
    simp only [Option.map_some', hid, beq_self_eq_true, if_true]
    exact any_upsert_other c.overwrites uid w v s h

theorem hasViewSend_isSome (g : Guild) (ch uid : String)
    (h : hasViewSend g ch uid = true) : (getChannel g ch).isSome = true := by
  unfold hasViewSend at h
  cases hc : getChannel g ch with
  | none => rw [hc] at h; simp at h
  | some c => rfl

theorem hasViewSend_editOverwrite_kept (g : Guild) (ch uid w : String)
    (h : hasViewSend g ch uid = true) :
    hasViewSend (editOverwrite g ch w true true) ch uid = true := by
  by_cases hw : uid = w
  · subst hw
    exact hasViewSend_editOverwrite_self g ch uid (hasViewSend_isSome g ch uid h)
  · rw [hasViewSend_editOverwrite_other g ch uid w true true hw]
    exact h

/-! ### Lemmas about the reopen re-grant fold -/

theorem grantAll_mono (ms : List String) (g : Guild) (ch u : String)
    (h : hasViewSend g ch u = true) :
    hasViewSend (ms.foldl (fun g w => editOverwrite g ch w true true) g) ch u = true := by
  induction ms generalizing g with
  | nil => exact h
  | cons w ms ih =>
    exact ih (editOverwrite g ch w true true) (hasViewSend_editOverwrite_kept g ch u w h)

theorem grantAll_isSome (ms : List String) (g : Guild) (ch ch' : String) :
    (getChannel (ms.foldl (fun g w => editOverwrite g ch w true true) g) ch').isSome =
      (getChannel g ch').isSome := by
  induction ms generalizing g with
  | nil => rfl
  | cons w ms ih =>
    rw [List.foldl_cons, ih (editOverwrite g ch w true true),
      getChannel_isSome_editOverwrite]

theorem grantAll_grants (ms : List String) (g : Guild) (ch : String)
    (hch : (getChannel g ch).isSome = true) (u : String) (hu : u ∈ ms) :
    hasViewSend (ms.foldl (fun g w => editOverwrite g ch w true true) g) ch u = true := by
  induction ms generalizing g with
  | nil => cases hu
  | cons w ms ih =>
    rcases List.mem_cons.mp hu with rfl | hu
    · exact grantAll_mono ms _ ch u (hasViewSend_editOverwrite_self g ch u hch)
    · refine ih (editOverwrite g ch w true true) ?_ hu
      rw [getChannel_isSome_editOverwrite]
      exact hch

/-! ### Lemmas about the close member-strip loop and the store updates -/

theorem stripLoop_nil_ok (chId own cal : String) (staffb : Bool) (g : Guild) (l : List String) :
    (stripLoop [] chId own cal staffb g l).2 = Except.ok () := by
  induction l generalizing g with
  | nil => rfl
  | cons uid rest ih =>
    unfold stripLoop
    by_cases h : (uid != own && !(staffb && uid == cal)) = true
    · rw [if_pos h, if_neg (by simp)]
      exact ih _
    · rw [if_neg h]
      exact ih _

theorem stripLoop_hasOverwrite_mono (fails : List String) (chId own cal : String) (staffb : Bool)
    (g : Guild) (l : List String) (u : String)
    (h : hasOverwrite (stripLoop fails chId own cal staffb g l).1 chId u = true) :
    hasOverwrite g chId u = true := by
  induction l generalizing g with
  | nil => exact h
  | cons uid rest ih =>
    unfold stripLoop at h
    by_cases hc : (uid != own && !(staffb && uid == cal)) = true
    · rw [if_pos hc] at h
      by_cases hf : (fails.contains uid) = true
      · rw [if_pos hf] at h
        exact h
      · rw [if_neg hf] at h
        have h2 := ih _ h
        rw [hasOverwrite_deleteOverwrite] at h2
        exact ((Bool.and_eq_true _ _).mp h2).2
    · rw [if_neg hc] at h
      exact ih _ h

theorem stripLoop_strips (chId own cal : String) (staffb : Bool) (g : Guild) (l : List String)
    (u : String) (hu : u ∈ l) (hcond : (u != own && !(staffb && u == cal)) = true) :
    hasOverwrite (stripLoop [] chId own cal staffb g l).1 chId u = false := by
  induction hu generalizing g with
  | head rest =>
    unfold stripLoop
    rw [if_pos hcond, if_neg (by simp)]
    cases hres : hasOverwrite (stripLoop [] chId own cal staffb (deleteOverwrite g chId u) rest).1 chId u with
    | false => rfl
    | true =>
      exfalso
      have h2 := stripLoop_hasOverwrite_mono [] chId own cal staffb _ rest u hres
      rw [hasOverwrite_deleteOverwrite] at h2
      simp at h2
  | tail uid hmem ih =>
    unfold stripLoop
    by_cases hc : (uid != own && !(staffb && uid == cal)) = true
    · rw [if_pos hc, if_neg (by simp)]
      exact ih _
    · rw [if_neg hc]
      exact ih _

theorem stripLoop_preserves_skipped (fails : List String) (chId own cal : String) (staffb : Bool)
    (g : Guild) (l : List String) (u : String)
    (hcond : (u != own && !(staffb && u == cal)) = false) :
    hasOverwrite (stripLoop fails chId own cal staffb g l).1 chId u = hasOverwrite g chId u := by
  induction l generalizing g with
  | nil => rfl
  | cons uid rest ih =>
    unfold stripLoop
    by_cases hc : (uid != own && !(staffb && uid == cal)) = true
    · by_cases hf : (fails.contains uid) = true
      · rw [if_pos hc, if_pos hf]
      · rw [if_pos hc, if_neg hf, ih, hasOverwrite_deleteOverwrite]
        have hne : (u != uid) = true := by
          rw [bne_iff_ne]
          intro he
          subst he
          rw [hcond] at hc
          simp at hc
        rw [hne, Bool.true_and]
    · rw [if_neg hc]
      exact ih _

theorem stripLoop_isSome (fails : List String) (chId own cal : String) (staffb : Bool)
    (g : Guild) (l : List String) (ch' : String) :
    (getChannel (stripLoop fails chId own cal staffb g l).1 ch').isSome =
      (getChannel g ch').isSome := by
  induction l generalizing g with
  | nil => rfl
  | cons uid rest ih =>
    unfold stripLoop
    by_cases hc : (uid != own && !(staffb && uid == cal)) = true
    · by_cases hf : (fails.contains uid) = true
      · rw [if_pos hc, if_pos hf]
      · rw [if_pos hc, if_neg hf, ih, getChannel_isSome_deleteOverwrite]
    · rw [if_neg hc]
      exact ih _

theorem stripLoop_parent (fails : List String) (chId own cal : String) (staffb : Bool)
    (g : Guild) (l : List String) (ch' : String) :
    parentOf (stripLoop fails chId own cal staffb g l).1 ch' = parentOf g ch' := by
  induction l generalizing g with
  | nil => rfl
  | cons uid rest ih =>
    unfold stripLoop
    by_cases hc : (uid != own && !(staffb && uid == cal)) = true
    · by_cases hf : (fails.contains uid) = true
      · rw [if_pos hc, if_pos hf]
      · rw [if_pos hc, if_neg hf, ih, parentOf_deleteOverwrite]
    · rw [if_neg hc]
      exact ih _

theorem stripLoop_error_of_fail (fails : List String) (chId own cal : String) (staffb : Bool)
    (g : Guild) (l : List String) (u : String) (hu : u ∈ l)
    (hcond : (u != own && !(staffb && u == cal)) = true)
    (hf : fails.contains u = true) :
    (stripLoop fails chId own cal staffb g l).2 = Except.error CmdError.gatewayError := by
  induction hu generalizing g with
  | head rest =>
    unfold stripLoop
    rw [if_pos hcond, if_pos hf]
  | tail uid hmem ih =>
    unfold stripLoop
    by_cases hc : (uid != own && !(staffb && uid == cal)) = true
    · by_cases hff : (fails.contains uid) = true
      · rw [if_pos hc, if_pos hff]
      · rw [if_pos hc, if_neg hff]
        exact ih _
    · rw [if_neg hc]
      exact ih _

theorem getTicket_setClosed (ts : List TicketRow) (chId : String) (now : Nat) :
    getTicket (setClosed ts chId now) chId =
      Option.map (fun t => { t with status := "closed", closedAt := some now })
        (getTicket ts chId) := by
  unfold getTicket setClosed
  rw [List.find?_map]
  have hp : ((fun t : TicketRow => t.channelId == chId) ∘
      (fun t => if t.channelId == chId then { t with status := "closed", closedAt := some now } else t)) =
      (fun t : TicketRow => t.channelId == chId) := by
    funext t
    by_cases h : t.channelId = chId <;> simp [h]
  rw [hp]
  cases hf : ts.find? (fun t => t.channelId == chId) with
  | none => rfl
  | some t =>
    have hpt : (t.channelId == chId) = true :=
      @List.find?_some _ (fun t : TicketRow => t.channelId == chId) t ts hf
    simp [beq_iff_eq.mp hpt]

theorem getTicket_setOpen (ts : List TicketRow) (chId : String) :
    getTicket (setOpen ts chId) chId =
      Option.map (fun t => { t with status := "open" }) (getTicket ts chId) := by
  unfold getTicket setOpen
  rw [List.find?_map]
  have hp : ((fun t : TicketRow => t.channelId == chId) ∘
      (fun t => if t.channelId == chId then { t with status := "open" } else t)) =
      (fun t : TicketRow => t.channelId == chId) := by
    funext t
    by_cases h : t.channelId = chId <;> simp [h]
  rw [hp]
  cases hf : ts.find? (fun t => t.channelId == chId) with
  | none => rfl
  | some t =>
    have hpt : (t.channelId == chId) = true :=
      @List.find?_some _ (fun t : TicketRow => t.channelId == chId) t ts hf
    simp [beq_iff_eq.mp hpt]

theorem find?_filter_not {α : Type} (l : List α) (p : α → Bool) :
    (l.filter (fun a => !(p a))).find? p = none := by
  rw [List.find?_eq_none]
  intro x hx
  have h2 := (List.mem_filter.mp hx).2
  cases hp : p x with
  | false => simp [hp]
  | true => rw [hp] at h2; simp at h2

theorem all_filter_not {α : Type} (l : List α) (p : α → Bool) :
    (l.filter (fun a => !(p a))).all (fun a => !(p a)) = true := by
  rw [List.all_eq_true]
  intro x hx
  exact (List.mem_filter.mp hx).2

theorem getChannel_removeChannel_self (g : Guild) (chId : String) :
    getChannel (removeChannel g chId) chId = none := by
  unfold getChannel removeChannel
  exact find?_filter_not g.channels (fun c => c.id == chId)

theorem getClosedTicket_of_first (ts : List TicketRow) (chId : String) (t : TicketRow)
    (ht : getTicket ts chId = some t) (hc : t.status = "closed") :
    getClosedTicket ts chId = some t := by
  unfold getTicket at ht
  unfold getClosedTicket
  induction ts with
  | nil => simp at ht
  | cons a ts ih =>
    by_cases h : (a.channelId == chId) = true
    · rw [@List.find?_cons_of_pos _ (fun t : TicketRow => t.channelId == chId) a ts h] at ht
      injection ht with ht
      subst ht
      have hall : (a.channelId == chId && a.status == "closed") = true := by
        rw [h, hc]
        simp
      rw [@List.find?_cons_of_pos _
        (fun t : TicketRow => t.channelId == chId && t.status == "closed") a ts hall]
    · rw [@List.find?_cons_of_neg _ (fun t : TicketRow => t.channelId == chId) a ts h] at ht
      have h2 : ¬(a.channelId == chId && a.status == "closed") = true :=
        fun hh => h ((Bool.and_eq_true _ _).mp hh).1
      rw [@List.find?_cons_of_neg _
        (fun t : TicketRow => t.channelId == chId && t.status == "closed") a ts h2]
      exact ih ht

/-! ### Concrete data used by witnesses and counterexamples -/

/-- A configured community: support role `R`, closed category `C`, log channel `L`. -/
def cfg0 : ConfigRow :=
  { guildId := "G", supportRole := some "R", closedCategory := some "C",
    logChannel := some "L", panelColor := "#FFC0CB" }

/-- The ticket channel `T`, owned by `U`, with member `X` also holding access. -/
def ticketChan : Channel :=
  { id := "T", name := "ticket-u", typ := ChanType.guildText, parent := none,
    overwrites :=
      [ { id := "G", view := false, send := false },
        { id := "U", view := true, send := true },
        { id := "R", view := true, send := true },
        { id := "X", view := true, send := true } ] }

/-- The log channel `L`. -/
def logChan : Channel :=
  { id := "L", name := "ticket-logs", typ := ChanType.guildText, parent := none,
    overwrites := [] }

/-- The open ticket stored for channel `T`, owned by `U`. -/
def ticket0 : TicketRow :=
  { channelId := "T", guildId := "G", ownerId := "U", panelName := "main",
    status := "open", createdAt := 5, closedAt := none }

/-- A world with one open ticket `T` (members `U`, `X`) and the log channel `L`. -/
def st0 : St :=
  { config := some cfg0,
    tickets := [ticket0],
    ticketMembers := [ { channelId := "T", userId := "U" }, { channelId := "T", userId := "X" } ],
    guild := { id := "G", channels := [ticketChan, logChan] },
    logPosts := [] }

/-- A staff member `S` (holds role `R`), not an administrator. -/
def staffCaller : Caller := { userId := "S", username := "s", isAdmin := false, roles := ["R"] }

/-- An administrator `A` who does not hold the support role. -/
def adminCaller : Caller := { userId := "A", username := "a", isAdmin := true, roles := [] }

/-- An environment in which every gateway call succeeds. -/
def envOk : Env :=
  { createFails := false, stripFails := [], exportFails := false,
    channelDeleteFails := false, now := 42, newChannelId := "N" }

/-! ### The claims -/

/-- Claim C7: `remove` targeting the ticket's owner always fails with
`CannotRemoveOwner` for any caller the authorization gate admits (staff or
the owner), and the state is returned untouched: the owner's TicketMember
row is not deleted and the owner's channel access is not revoked
(src/index.js line 400, which throws before the permission delete at
line 402 and the row delete at line 404). -/
theorem remove_owner_rejected (st : St) (caller : Caller) (chId : String) (t : TicketRow)
    (ht : getTicket st.tickets chId = some t)
    (hauth : isStaffOf st.config caller.roles = true ∨ caller.userId = t.ownerId) :
    removeCmd st caller chId t.ownerId = (st, Except.error CmdError.cannotRemoveOwner) := by
  cases hs : isStaffOf st.config caller.roles with
  | true => simp [removeCmd, ht, hs]
  | false =>
    rcases hauth with hs' | ho
    · rw [hs] at hs'
      cases hs'
    · simp [removeCmd, ht, hs, ho]

/-- Witness for `remove_owner_rejected`: staff `S` tries to remove owner `U`. -/
theorem remove_owner_rejected_witness :
    removeCmd st0 staffCaller "T" ticket0.ownerId =
      (st0, Except.error CmdError.cannotRemoveOwner) :=
  remove_owner_rejected st0 staffCaller "T" ticket0 rfl (Or.inl rfl)

/-- Claim C8: the administrator flag alone never authorizes the staff-only
actions: a caller with `isAdmin = true` who does not hold the support role
is denied by both `open` (reopen, line 464) and `delete` (line 487), with
no state change — `isAdmin` is never consulted on those paths. -/
theorem admin_flag_does_not_authorize (env : Env) (st : St) (caller : Caller) (chId : String)
    (hadmin : caller.isAdmin = true)
    (hstaff : isStaffOf st.config caller.roles = false) :
    (∃ e, openCmd st caller chId = (st, Except.error e)) ∧
    (∃ e, deleteCmd env st caller chId = (st, Except.error e)) := by
  constructor
  · cases hc : getClosedTicket st.tickets chId with
    | none => exact ⟨CmdError.notClosed, by simp [openCmd, hc]⟩
    | some t => exact ⟨CmdError.forbidden, by simp [openCmd, hc, hstaff]⟩
  · cases hc : getTicket st.tickets chId with
    | none => exact ⟨CmdError.notATicketChannel, by simp [deleteCmd, hc]⟩
    | some t => exact ⟨CmdError.forbidden, by simp [deleteCmd, hc, hstaff]⟩

/-- Witness for `admin_flag_does_not_authorize`: administrator `A` without
the support role is denied reopen and delete on ticket channel `T`. -/
theorem admin_flag_does_not_authorize_witness :
    (∃ e, openCmd st0 adminCaller "T" = (st0, Except.error e)) ∧
    (∃ e, deleteCmd envOk st0 adminCaller "T" = (st0, Except.error e)) :=
  admin_flag_does_not_authorize envOk st0 adminCaller "T" rfl rfl

/-- Claim C9: a staff caller's `add` in a channel with no Ticket row is not
rejected (line 375 requires both `!ticket` and `!isStaff` to throw): it
succeeds, grants the target view/send access on the channel, and inserts a
TicketMember row whose `channelId` has no parent Ticket row, so the
"every TicketMember belongs to an existing Ticket" invariant is not
preserved by every operation. -/
theorem add_without_ticket_inserts_orphan (st : St) (caller : Caller) (chId target : String)
    (c : Channel)
    (hstaff : isStaffOf st.config caller.roles = true)
    (hnone : getTicket st.tickets chId = none)
    (hch : getChannel st.guild chId = some c) :
    (addCmd st caller chId target).2 = Except.ok () ∧
    hasViewSend (addCmd st caller chId target).1.guild chId target = true ∧
    ((addCmd st caller chId target).1.ticketMembers.any
      (fun m => m.channelId == chId && m.userId == target)) = true ∧
    getTicket (addCmd st caller chId target).1.tickets chId = none := by
  have hred : addCmd st caller chId target = (addApply st chId target, Except.ok ()) := by
    simp [addCmd, hnone, hstaff]
  rw [hred]
  refine ⟨rfl, ?_, ?_, ?_⟩
  · show hasViewSend (editOverwrite st.guild chId target true true) chId target = true
    exact hasViewSend_editOverwrite_self st.guild chId target (by rw [hch]; rfl)
  · simp only [addApply]
    by_cases h : (st.ticketMembers.any (fun m => m.channelId == chId && m.userId == target)) = true
    · simp only [if_pos h]
      exact h
    · simp only [if_neg h, List.any_append]
      simp
  · simp only [addApply]
    exact hnone

/-- Witness for `add_without_ticket_inserts_orphan`: staff `S` runs `add Y`
inside the log channel `L`, which has no ticket row. -/
theorem add_without_ticket_inserts_orphan_witness :
    (addCmd st0 staffCaller "L" "Y").2 = Except.ok () ∧
    hasViewSend (addCmd st0 staffCaller "L" "Y").1.guild "L" "Y" = true ∧
    ((addCmd st0 staffCaller "L" "Y").1.ticketMembers.any
      (fun m => m.channelId == "L" && m.userId == "Y")) = true ∧
    getTicket (addCmd st0 staffCaller "L" "Y").1.tickets "L" = none :=
  add_without_ticket_inserts_orphan st0 staffCaller "L" "Y" logChan rfl rfl rfl

/-- Claim C10: a staff caller's `remove` in a channel with no Ticket row skips
the not-a-ticket-channel guard (line 398 needs `!isStaff` too) and then
line 400 reads `ticketData.ownerId` with `ticketData === undefined`, raising
a JavaScript `TypeError`: the operation neither succeeds nor returns
`NotATicketChannel`, and no mutation happens. -/
theorem remove_without_ticket_crashes (st : St) (caller : Caller) (chId target : String)
    (hstaff : isStaffOf st.config caller.roles = true)
    (hnone : getTicket st.tickets chId = none) :
    removeCmd st caller chId target = (st, Except.error CmdError.typeError) := by
  simp [removeCmd, hnone, hstaff]

/-- Witness for `remove_without_ticket_crashes`: staff `S` runs `remove Y`
inside the log channel `L`, which has no ticket row. -/
theorem remove_without_ticket_crashes_witness :
    removeCmd st0 staffCaller "L" "Y" = (st0, Except.error CmdError.typeError) :=
  remove_without_ticket_crashes st0 staffCaller "L" "Y" rfl rfl

theorem logIfConfigured_tickets (st : St) : (logIfConfigured st).tickets = st.tickets := by
  unfold logIfConfigured
  cases st.config.bind (fun c => c.logChannel) with
  | none => rfl
  | some lc => by_cases h : (getChannel st.guild lc).isSome = true <;> simp [h]

theorem logIfConfigured_ticketMembers (st : St) :
    (logIfConfigured st).ticketMembers = st.ticketMembers := by
  unfold logIfConfigured
  cases st.config.bind (fun c => c.logChannel) with
  | none => rfl
  | some lc => by_cases h : (getChannel st.guild lc).isSome = true <;> simp [h]

theorem logIfConfigured_guild (st : St) : (logIfConfigured st).guild = st.guild := by
  unfold logIfConfigured
  cases st.config.bind (fun c => c.logChannel) with
  | none => rfl
  | some lc => by_cases h : (getChannel st.guild lc).isSome = true <;> simp [h]

theorem logIfConfigured_posts (st : St) (lc : String)
    (hlc : st.config.bind (fun c => c.logChannel) = some lc)
    (hch : (getChannel st.guild lc).isSome = true) :
    lc ∈ (logIfConfigured st).logPosts := by
  unfold logIfConfigured
  simp only [hlc]
  rw [if_pos hch]
  simp

/-- Claim C3: every failing invocation of `createTicketChannel` — config
missing or without a support role (`NotConfigured`), a live same-named text
channel existing (`DuplicateTicket`), or channel creation failing at the
gateway (`GatewayError`) — writes no Ticket row and no TicketMember row,
and creates no channel: the whole state is returned unchanged, because the
database inserts (lines 221-229) run only after `guild.channels.create`
has succeeded. -/
theorem create_failure_writes_nothing (env : Env) (st : St) (caller : Caller)
    (panelName : String) (e : CmdError)
    (h : (createTicketChannel env st caller panelName).2 = Except.error e) :
    (createTicketChannel env st caller panelName).1 = st := by
  unfold createTicketChannel at h ⊢
  cases hc : st.config.bind (fun c => c.supportRole) with
  | none => rfl
  | some role =>
    simp only [hc] at h ⊢
    cases hf : st.guild.channels.find?
        (fun c => c.name == "ticket-" ++ caller.username.toLower && c.typ == ChanType.guildText) with
    | some c => simp [hf]
    | none =>
      cases he : env.createFails with
      | true => simp [hf, he]
      | false => simp [hf, he] at h

/-- Witness for `create_failure_writes_nothing`: a world with no config row
at all; `create` fails with `NotConfigured` and the state is unchanged. -/
theorem create_failure_writes_nothing_witness :
    (createTicketChannel envOk
      { config := none, tickets := [], ticketMembers := [],
        guild := { id := "G", channels := [] }, logPosts := [] }
      staffCaller "main").1 =
      { config := none, tickets := [], ticketMembers := [],
        guild := { id := "G", channels := [] }, logPosts := [] } :=
  create_failure_writes_nothing envOk
    { config := none, tickets := [], ticketMembers := [],
      guild := { id := "G", channels := [] }, logPosts := [] }
    staffCaller "main" CmdError.notConfigured rfl

/-- Claim C6: a successful `delete` removes the Ticket row, every TicketMember
row of the ticket, and the external channel (lines 507-512): afterwards a
lookup by the channel id finds no ticket, no member row, and no channel. -/
theorem delete_success_removes_everything (env : Env) (st : St) (caller : Caller)
    (chId : String) (st2 : St)
    (h : deleteCmd env st caller chId = (st2, Except.ok ())) :
    getTicket st2.tickets chId = none ∧
    st2.ticketMembers.all (fun m => !(m.channelId == chId)) = true ∧
    getChannel st2.guild chId = none := by
  unfold deleteCmd at h
  cases hc : getTicket st.tickets chId with
  | none => simp [hc] at h
  | some t =>
    simp only [hc] at h
    cases hs : isStaffOf st.config caller.roles with
    | false => simp [hs] at h
    | true =>
      simp only [hs] at h
      cases he : env.exportFails with
      | true => simp [he] at h
      | false =>
        simp only [he] at h
        cases hd : env.channelDeleteFails with
        | true => simp [hd] at h
        | false =>
          simp only [hd, Bool.not_true, Bool.false_eq_true, if_false, Prod.mk.injEq] at h
          obtain ⟨h1, -⟩ := h
          subst h1
          exact ⟨find?_filter_not _ _, all_filter_not _ _, getChannel_removeChannel_self _ _⟩

/-- Witness for `delete_success_removes_everything`: staff `S` deletes
ticket `T` in an all-success environment. -/
theorem delete_success_removes_everything_witness :
    getTicket (deleteCmd envOk st0 staffCaller "T").1.tickets "T" = none ∧
    (deleteCmd envOk st0 staffCaller "T").1.ticketMembers.all
      (fun m => !(m.channelId == "T")) = true ∧
    getChannel (deleteCmd envOk st0 staffCaller "T").1.guild "T" = none :=
  delete_success_removes_everything envOk st0 staffCaller "T"
    (deleteCmd envOk st0 staffCaller "T").1 rfl

/-- Claim C5 (amended): `delete` by a staff caller exports the transcript
first, but the export is not best-effort: a failing export aborts the
handler with `ExportError` and nothing is removed (the `await` at line 491
is unguarded); only when the export succeeds (and the channel deletion
succeeds) are the Ticket row, all its TicketMember rows, and the external
channel removed. -/
theorem delete_export_gates_deletion (env : Env) (st : St) (caller : Caller) (chId : String)
    (t : TicketRow)
    (ht : getTicket st.tickets chId = some t)
    (hstaff : isStaffOf st.config caller.roles = true) :
    (env.exportFails = true →
      deleteCmd env st caller chId = (st, Except.error CmdError.exportError)) ∧
    (env.exportFails = false → env.channelDeleteFails = false →
      (deleteCmd env st caller chId).2 = Except.ok () ∧
      getTicket (deleteCmd env st caller chId).1.tickets chId = none ∧
      (deleteCmd env st caller chId).1.ticketMembers.all
        (fun m => !(m.channelId == chId)) = true ∧
      getChannel (deleteCmd env st caller chId).1.guild chId = none) := by
  constructor
  · intro he
    simp [deleteCmd, ht, hstaff, he]
  · intro he hd
    have hred : deleteCmd env st caller chId =
        ({ logIfConfigured st with
            tickets := (logIfConfigured st).tickets.filter (fun t => !(t.channelId == chId)),
            ticketMembers :=
              (logIfConfigured st).ticketMembers.filter (fun m => !(m.channelId == chId)),
            guild := removeChannel (logIfConfigured st).guild chId }, Except.ok ()) := by
      simp [deleteCmd, ht, hstaff, he, hd]
    rw [hred]
    exact ⟨rfl, find?_filter_not _ _, all_filter_not _ _, getChannel_removeChannel_self _ _⟩

/-- Witness for `delete_export_gates_deletion`: staff `S` deletes ticket `T`
in the all-success environment. -/
theorem delete_export_gates_deletion_witness :
    (envOk.exportFails = true →
      deleteCmd envOk st0 staffCaller "T" = (st0, Except.error CmdError.exportError)) ∧
    (envOk.exportFails = false → envOk.channelDeleteFails = false →
      (deleteCmd envOk st0 staffCaller "T").2 = Except.ok () ∧
      getTicket (deleteCmd envOk st0 staffCaller "T").1.tickets "T" = none ∧
      (deleteCmd envOk st0 staffCaller "T").1.ticketMembers.all
        (fun m => !(m.channelId == "T")) = true ∧
      getChannel (deleteCmd envOk st0 staffCaller "T").1.guild "T" = none) :=
  delete_export_gates_deletion envOk st0 staffCaller "T" ticket0 rfl rfl

/-- An environment in which only the transcript export fails. -/
def envExportFail : Env :=
  { createFails := false, stripFails := [], exportFails := true,
    channelDeleteFails := false, now := 42, newChannelId := "N" }

/-- Counterexample to C5 as stated: when the transcript export fails,
`delete` by staff `S` does NOT proceed to delete — it aborts with
`ExportError` and the Ticket row and the channel both survive. -/
theorem delete_export_failure_aborts :
    deleteCmd envExportFail st0 staffCaller "T" = (st0, Except.error CmdError.exportError) ∧
    getTicket st0.tickets "T" = some ticket0 ∧
    getChannel st0.guild "T" = some ticketChan :=
  ⟨rfl, rfl, rfl⟩

theorem hasOverwrite_setParent (g : Guild) (chId cat ch' u : String) :
    hasOverwrite (setParent g chId cat) ch' u = hasOverwrite g ch' u := by
  unfold hasOverwrite setParent
  rw [getChannel_mapChannel g chId ch' (fun c => { c with parent := some cat }) (fun _ => rfl)]
  cases getChannel g ch' with
  | none => rfl
  | some c => by_cases h : c.id = chId <;> simp [h]

theorem hasOverwrite_moveIfConfigured (cfg : Option ConfigRow) (g : Guild) (chId ch' u : String) :
    hasOverwrite (moveIfConfigured cfg g chId) ch' u = hasOverwrite g ch' u := by
  unfold moveIfConfigured
  cases cfg.bind (fun c => c.closedCategory) with
  | none => rfl
  | some cat => exact hasOverwrite_setParent g chId cat ch' u

theorem getChannel_isSome_moveIfConfigured (cfg : Option ConfigRow) (g : Guild)
    (chId ch' : String) :
    (getChannel (moveIfConfigured cfg g chId) ch').isSome = (getChannel g ch').isSome := by
  unfold moveIfConfigured
  cases cfg.bind (fun c => c.closedCategory) with
  | none => rfl
  | some cat => exact getChannel_isSome_setParent g chId ch' cat

/-- Claim C2: reopen of a ticket stored as closed, by a staff caller,
re-grants view/send channel access to every stored TicketMember, sets the
status to `open`, and leaves `closedAt` at the earlier close time; and
whenever no closed ticket is stored for the channel, `open` fails with
`NotClosed`.  (This theorem is about the evident intent of line 476; the
line as written in the source is a JavaScript syntax error, see `setOpen`.) -/
theorem reopen_restores_members_and_status (st : St) (caller : Caller) (chId : String)
    (t : TicketRow) (c : Channel)
    (ht : getTicket st.tickets chId = some t)
    (hclosed : t.status = "closed")
    (hstaff : isStaffOf st.config caller.roles = true)
    (hch : getChannel st.guild chId = some c) :
    (openCmd st caller chId).2 = Except.ok () ∧
    getTicket (openCmd st caller chId).1.tickets chId = some { t with status := "open" } ∧
    ({ t with status := "open" } : TicketRow).closedAt = t.closedAt ∧
    (∀ uid ∈ memberIdsOf st.ticketMembers chId,
      hasViewSend (openCmd st caller chId).1.guild chId uid = true) ∧
    (∀ (st2 : St) (c2 : Caller) (ch2 : String), getClosedTicket st2.tickets ch2 = none →
      openCmd st2 c2 ch2 = (st2, Except.error CmdError.notClosed)) := by
  have hcl : getClosedTicket st.tickets chId = some t :=
    getClosedTicket_of_first st.tickets chId t ht hclosed
  have hred : openCmd st caller chId =
      ({ st with
          guild := (memberIdsOf st.ticketMembers chId).foldl
            (fun g uid => editOverwrite g chId uid true true) st.guild,
          tickets := setOpen st.tickets chId }, Except.ok ()) := by
    simp [openCmd, hcl, hstaff]
  refine ⟨?_, ?_, rfl, ?_, ?_⟩
  · rw [hred]
  · rw [hred]
    show getTicket (setOpen st.tickets chId) chId = _
    rw [getTicket_setOpen, ht]
    rfl
  · intro uid hu
    rw [hred]
    exact grantAll_grants _ _ _ (by rw [hch]; rfl) uid hu
  · intro st2 c2 ch2 hnone
    simp [openCmd, hnone]

/-- The ticket `T` as stored after a close at time 42. -/
def closedTicket0 : TicketRow :=
  { channelId := "T", guildId := "G", ownerId := "U", panelName := "main",
    status := "closed", createdAt := 5, closedAt := some 42 }

/-- The ticket channel `T` after the close: reparented under `C`,
with `X`'s overwrite stripped. -/
def closedTicketChan : Channel :=
  { id := "T", name := "ticket-u", typ := ChanType.guildText, parent := some "C",
    overwrites :=
      [ { id := "G", view := false, send := false },
        { id := "U", view := true, send := true },
        { id := "R", view := true, send := true } ] }

/-- A world in which ticket `T` is stored as closed. -/
def stClosed : St :=
  { config := some cfg0,
    tickets := [closedTicket0],
    ticketMembers := [ { channelId := "T", userId := "U" }, { channelId := "T", userId := "X" } ],
    guild := { id := "G", channels := [closedTicketChan, logChan] },
    logPosts := ["L"] }

/-- Witness for `reopen_restores_members_and_status`: staff `S` reopens the
closed ticket `T`. -/
theorem reopen_restores_members_and_status_witness :
    (openCmd stClosed staffCaller "T").2 = Except.ok () ∧
    getTicket (openCmd stClosed staffCaller "T").1.tickets "T" =
      some { closedTicket0 with status := "open" } ∧
    ({ closedTicket0 with status := "open" } : TicketRow).closedAt = closedTicket0.closedAt ∧
    (∀ uid ∈ memberIdsOf stClosed.ticketMembers "T",
      hasViewSend (openCmd stClosed staffCaller "T").1.guild "T" uid = true) ∧
    (∀ (st2 : St) (c2 : Caller) (ch2 : String), getClosedTicket st2.tickets ch2 = none →
      openCmd st2 c2 ch2 = (st2, Except.error CmdError.notClosed)) :=
  reopen_restores_members_and_status stClosed staffCaller "T" closedTicket0 closedTicketChan
    rfl rfl rfl rfl

/-- Claim C4 (amended): during close's member-strip loop a single member's
permission-strip failure aborts the stripping of the remaining members (the
loop has no per-item guard, lines 436-440), but it does not leave the
database status update unapplied: `status='closed'`/`closedAt` (line 424)
run before the loop, and the gateway error does not unwind them — the
handler returns `GatewayError` with the store mutation kept. -/
theorem close_strip_failure_keeps_store (env : Env) (st : St) (caller : Caller)
    (chId : String) (t : TicketRow) (u : String)
    (ht : getTicket st.tickets chId = some t)
    (hauth : isStaffOf st.config caller.roles = true ∨ caller.userId = t.ownerId)
    (hexp : env.exportFails = false)
    (hu : u ∈ memberIdsOf st.ticketMembers chId)
    (hcond : (u != t.ownerId && !(isStaffOf st.config caller.roles && u == caller.userId)) = true)
    (hfail : env.stripFails.contains u = true) :
    (closeCmd env st caller chId).2 = Except.error CmdError.gatewayError ∧
    getTicket (closeCmd env st caller chId).1.tickets chId =
      some { t with status := "closed", closedAt := some env.now } := by
  have hguard : ((!isStaffOf st.config caller.roles) && (t.ownerId != caller.userId)) = false := by
    rcases hauth with hs | ho
    · simp [hs]
    · simp [ho]
  have hred : closeCmd env st caller chId =
      closeApply env.stripFails env.now st (isStaffOf st.config caller.roles)
        caller.userId chId t.ownerId := by
    simp [closeCmd, ht, hguard, hexp]
  rw [hred]
  unfold closeApply
  rcases hsl : stripLoop env.stripFails chId t.ownerId caller.userId
      (isStaffOf st.config caller.roles) (closeMoved st chId env.now).guild
      (memberIdsOf (closeMoved st chId env.now).ticketMembers chId) with ⟨g', r⟩
  have hr : r = Except.error CmdError.gatewayError := by
    have h2 := stripLoop_error_of_fail env.stripFails chId t.ownerId caller.userId
      (isStaffOf st.config caller.roles) (closeMoved st chId env.now).guild
      (memberIdsOf (closeMoved st chId env.now).ticketMembers chId) u hu hcond hfail
    rw [hsl] at h2
    exact h2
  subst hr
  refine ⟨rfl, ?_⟩
  show getTicket (setClosed st.tickets chId env.now) chId = _
  rw [getTicket_setClosed, ht]
  rfl

/-- The ticket channel `T` with members `X` and `Y` also holding access. -/
def ticketChanXY : Channel :=
  { id := "T", name := "ticket-u", typ := ChanType.guildText, parent := none,
    overwrites :=
      [ { id := "G", view := false, send := false },
        { id := "U", view := true, send := true },
        { id := "R", view := true, send := true },
        { id := "X", view := true, send := true },
        { id := "Y", view := true, send := true } ] }

/-- A world with open ticket `T` whose stored members are `U`, `X`, `Y`. -/
def stXY : St :=
  { config := some cfg0,
    tickets := [ticket0],
    ticketMembers :=
      [ { channelId := "T", userId := "U" },
        { channelId := "T", userId := "X" },
        { channelId := "T", userId := "Y" } ],
    guild := { id := "G", channels := [ticketChanXY, logChan] },
    logPosts := [] }

/-- An environment in which only `X`'s permission strip fails. -/
def envStripXFail : Env :=
  { createFails := false, stripFails := ["X"], exportFails := false,
    channelDeleteFails := false, now := 42, newChannelId := "N" }

/-- Counterexample to C4 as stated: when `X`'s permission strip fails during
staff `S`'s close of `T`, the loop aborts, so the remaining member `Y` keeps
its channel access (it is not stripped) — while the status update stays
applied. -/
theorem close_strip_failure_aborts_rest :
    (closeCmd envStripXFail stXY staffCaller "T").2 = Except.error CmdError.gatewayError ∧
    hasOverwrite (closeCmd envStripXFail stXY staffCaller "T").1.guild "T" "Y" = true ∧
    getTicket (closeCmd envStripXFail stXY staffCaller "T").1.tickets "T" =
      some { ticket0 with status := "closed", closedAt := some 42 } :=
  ⟨rfl, rfl, rfl⟩

/-- Witness for `close_strip_failure_keeps_store`: staff `S` closes `T` and
`X`'s strip fails. -/
theorem close_strip_failure_keeps_store_witness :
    (closeCmd envStripXFail stXY staffCaller "T").2 = Except.error CmdError.gatewayError ∧
    getTicket (closeCmd envStripXFail stXY staffCaller "T").1.tickets "T" =
      some { ticket0 with status := "closed", closedAt := some envStripXFail.now } :=
  close_strip_failure_keeps_store envStripXFail stXY staffCaller "T" ticket0 "X"
    rfl (Or.inl rfl) rfl (by decide) (by decide) rfl

/-- Claim C1 (amended): close of an open ticket by an authorized requester
(staff or the owner), with all gateway calls succeeding, exports a
transcript and: sets `status=closed` and `closedAt=now`; moves the channel
under the configured closed category when one is configured; strips channel
access from every stored TicketMember except the owner and the closing
staff actor; leaves the owner's (and the staff actor's) access untouched;
posts the transcript to the log channel when one is configured AND still
present in the guild's channel cache; and does not delete the channel. -/
theorem close_effects (env : Env) (st : St) (caller : Caller) (chId : String)
    (t : TicketRow) (c : Channel)
    (ht : getTicket st.tickets chId = some t)
    (hopen : t.status = "open")
    (hauth : isStaffOf st.config caller.roles = true ∨ caller.userId = t.ownerId)
    (hexp : env.exportFails = false)
    (hstrip : env.stripFails = [])
    (hch : getChannel st.guild chId = some c) :
    (closeCmd env st caller chId).2 = Except.ok () ∧
    getTicket (closeCmd env st caller chId).1.tickets chId =
      some { t with status := "closed", closedAt := some env.now } ∧
    (∀ cat, st.config.bind (fun cf => cf.closedCategory) = some cat →
      parentOf (closeCmd env st caller chId).1.guild chId = some cat) ∧
    (∀ uid ∈ memberIdsOf st.ticketMembers chId,
      uid ≠ t.ownerId → ¬(isStaffOf st.config caller.roles = true ∧ uid = caller.userId) →
      hasOverwrite (closeCmd env st caller chId).1.guild chId uid = false) ∧
    hasOverwrite (closeCmd env st caller chId).1.guild chId t.ownerId =
      hasOverwrite st.guild chId t.ownerId ∧
    (isStaffOf st.config caller.roles = true →
      hasOverwrite (closeCmd env st caller chId).1.guild chId caller.userId =
        hasOverwrite st.guild chId caller.userId) ∧
    (∀ lc, st.config.bind (fun cf => cf.logChannel) = some lc →
      (getChannel st.guild lc).isSome = true →
      lc ∈ (closeCmd env st caller chId).1.logPosts) ∧
    (getChannel (closeCmd env st caller chId).1.guild chId).isSome = true := by
  have hguard : ((!isStaffOf st.config caller.roles) && (t.ownerId != caller.userId)) = false := by
    rcases hauth with hs | ho
    · simp [hs]
    · simp [ho]
  have hred : closeCmd env st caller chId =
      closeApply env.stripFails env.now st (isStaffOf st.config caller.roles)
        caller.userId chId t.ownerId := by
    simp [closeCmd, ht, hguard, hexp]
  rw [hred, hstrip]
  unfold closeApply
  rcases hsl : stripLoop [] chId t.ownerId caller.userId
      (isStaffOf st.config caller.roles) (closeMoved st chId env.now).guild
      (memberIdsOf (closeMoved st chId env.now).ticketMembers chId) with ⟨g', r⟩
  have hr : r = Except.ok () := by
    have h2 := stripLoop_nil_ok chId t.ownerId caller.userId
      (isStaffOf st.config caller.roles) (closeMoved st chId env.now).guild
      (memberIdsOf (closeMoved st chId env.now).ticketMembers chId)
    rw [hsl] at h2
    exact h2
  subst hr
  have hg' : g' = (stripLoop [] chId t.ownerId caller.userId
      (isStaffOf st.config caller.roles) (closeMoved st chId env.now).guild
      (memberIdsOf (closeMoved st chId env.now).ticketMembers chId)).1 := by
    rw [hsl]
  have hmembers : memberIdsOf (closeMoved st chId env.now).ticketMembers chId =
      memberIdsOf st.ticketMembers chId := rfl
  have hmoved : (closeMoved st chId env.now).guild = moveIfConfigured st.config st.guild chId := rfl
  refine ⟨rfl, ?_, ?_, ?_, ?_, ?_, ?_, ?_⟩
  · show getTicket (logIfConfigured { closeMoved st chId env.now with guild := g' }).tickets
      chId = _
    rw [logIfConfigured_tickets]
    show getTicket (setClosed st.tickets chId env.now) chId = _
    rw [getTicket_setClosed, ht]
    rfl
  · intro cat hcat
    show parentOf (logIfConfigured { closeMoved st chId env.now with guild := g' }).guild
      chId = some cat
    rw [logIfConfigured_guild]
    show parentOf g' chId = some cat
    rw [hg', stripLoop_parent, hmoved]
    unfold moveIfConfigured
    rw [hcat]
    exact parentOf_setParent_self st.guild chId cat (by rw [hch]; rfl)
  · intro uid hu hown hstaffcal
    show hasOverwrite (logIfConfigured { closeMoved st chId env.now with guild := g' }).guild
      chId uid = false
    rw [logIfConfigured_guild]
    show hasOverwrite g' chId uid = false
    have hbown : (uid != t.ownerId) = true := bne_iff_ne.mpr hown
    have hbcal : (!(isStaffOf st.config caller.roles && (uid == caller.userId))) = true := by
      cases hs : isStaffOf st.config caller.roles with
      | false => rfl
      | true =>
        have hne : uid ≠ caller.userId := fun he => hstaffcal ⟨hs, he⟩
        simp [hne]
    rw [hg']
    exact stripLoop_strips chId t.ownerId caller.userId (isStaffOf st.config caller.roles)
      (closeMoved st chId env.now).guild (memberIdsOf (closeMoved st chId env.now).ticketMembers chId)
      uid hu (by rw [hbown, hbcal]; rfl)
  · show hasOverwrite (logIfConfigured { closeMoved st chId env.now with guild := g' }).guild
      chId t.ownerId = _
    rw [logIfConfigured_guild]
    show hasOverwrite g' chId t.ownerId = _
    have hskip : ((t.ownerId != t.ownerId) &&
        !(isStaffOf st.config caller.roles && (t.ownerId == caller.userId))) = false := by simp
    rw [hg', stripLoop_preserves_skipped _ _ _ _ _ _ _ _ hskip, hmoved,
      hasOverwrite_moveIfConfigured]
  · intro hs
    show hasOverwrite (logIfConfigured { closeMoved st chId env.now with guild := g' }).guild
      chId caller.userId = _
    rw [logIfConfigured_guild]
    show hasOverwrite g' chId caller.userId = _
    have hskip : ((caller.userId != t.ownerId) &&
        !(isStaffOf st.config caller.roles && (caller.userId == caller.userId))) = false := by
      simp [hs]
    rw [hg', stripLoop_preserves_skipped _ _ _ _ _ _ _ _ hskip, hmoved,
      hasOverwrite_moveIfConfigured]
  · intro lc hlc hlcch
    show lc ∈ (logIfConfigured { closeMoved st chId env.now with guild := g' }).logPosts
    refine logIfConfigured_posts _ lc hlc ?_
    show (getChannel g' lc).isSome = true
    rw [hg', stripLoop_isSome, hmoved, getChannel_isSome_moveIfConfigured]
    exact hlcch
  · show (getChannel
      (logIfConfigured { closeMoved st chId env.now with guild := g' }).guild chId).isSome = true
    rw [logIfConfigured_guild]
    show (getChannel g' chId).isSome = true
    rw [hg', stripLoop_isSome, hmoved, getChannel_isSome_moveIfConfigured]
    rw [hch]
    rfl

/-- Witness for `close_effects`: staff `S` closes the open ticket `T` owned
by `U` with member list `{U, X}`, everything succeeding. -/
theorem close_effects_witness :
    (closeCmd envOk st0 staffCaller "T").2 = Except.ok () ∧
    getTicket (closeCmd envOk st0 staffCaller "T").1.tickets "T" =
      some { ticket0 with status := "closed", closedAt := some envOk.now } ∧
    (∀ cat, st0.config.bind (fun cf => cf.closedCategory) = some cat →
      parentOf (closeCmd envOk st0 staffCaller "T").1.guild "T" = some cat) ∧
    (∀ uid ∈ memberIdsOf st0.ticketMembers "T",
      uid ≠ ticket0.ownerId → ¬(isStaffOf st0.config staffCaller.roles = true ∧ uid = staffCaller.userId) →
      hasOverwrite (closeCmd envOk st0 staffCaller "T").1.guild "T" uid = false) ∧
    hasOverwrite (closeCmd envOk st0 staffCaller "T").1.guild "T" ticket0.ownerId =
      hasOverwrite st0.guild "T" ticket0.ownerId ∧
    (isStaffOf st0.config staffCaller.roles = true →
      hasOverwrite (closeCmd envOk st0 staffCaller "T").1.guild "T" staffCaller.userId =
        hasOverwrite st0.guild "T" staffCaller.userId) ∧
    (∀ lc, st0.config.bind (fun cf => cf.logChannel) = some lc →
      (getChannel st0.guild lc).isSome = true →
      lc ∈ (closeCmd envOk st0 staffCaller "T").1.logPosts) ∧
    (getChannel (closeCmd envOk st0 staffCaller "T").1.guild "T").isSome = true :=
  close_effects envOk st0 staffCaller "T" ticket0 ticketChan rfl rfl (Or.inl rfl) rfl rfl rfl

/-- A world like `st0` but whose guild no longer contains the configured log
channel `L` (e.g. it was deleted after setup). -/
def stNoLog : St :=
  { config := some cfg0,
    tickets := [ticket0],
    ticketMembers := [ { channelId := "T", userId := "U" }, { channelId := "T", userId := "X" } ],
    guild := { id := "G", channels := [ticketChan] },
    logPosts := [] }

/-- Counterexample to C1 as stated: with log channel `L` configured but no
longer present in the guild's channel cache, staff `S`'s close of `T`
succeeds yet posts no transcript message anywhere (`logPosts` stays empty),
though the claim says a transcript is posted whenever a log channel is
configured. -/
theorem close_no_post_when_log_channel_missing :
    (closeCmd envOk stNoLog staffCaller "T").2 = Except.ok () ∧
    stNoLog.config.bind (fun cf => cf.logChannel) = some "L" ∧
    (closeCmd envOk stNoLog staffCaller "T").1.logPosts = [] :=
  ⟨rfl, rfl, rfl⟩

end Tickets
